import Mathlib

/-!
Shallow embedding of the elex-proxy core, `src/main.rs`, for checking the
natural-language specification.  JSON values are an inductive `J`; the outward
envelope `R` mirrors the Rust struct `R`; the Pending Registry and the result
cache are association lists with replace-on-insert semantics; the stateful
handlers (`handle_request`, `handle_health`, the receive loop, the tip poller)
become pure functions over an explicit sink outcome, with `Except` capturing a
Rust panic.
-/

/-- JSON values, mirroring `serde_json::Value`.  Numbers are modelled as
integers: the proxy only inspects numbers through `as_u64`. -/
inductive J where
  | null : J
  | bool (b : Bool) : J
  | num (n : Int) : J
  | str (s : String) : J
  | arr (xs : List J) : J
  | obj (members : List (String × J)) : J


/-- `Value::as_object`: `some` members exactly when the value is an object. -/
def J.asObject : J → Option (List (String × J))
  | .obj m => some m
  | _ => none

/-- `serde_json::Map::get`: first binding of the key, if any. -/
def jGet (k : String) (m : List (String × J)) : Option J :=
  (m.find? (fun p => p.1 = k)).map (fun p => p.2)

/-- `Value::as_u64`: `some` exactly when the number is an unsigned 64-bit
integer. -/
def J.asU64 : J → Option Nat
  | .num n => if 0 ≤ n ∧ n < 18446744073709551616 then some n.toNat else none
  | _ => none

/-- Whether the value is a JSON object (`Value::is_object`). -/
def J.isObj : J → Bool
  | .obj _ => true
  | _ => false

/-- The outward result envelope, mirroring struct `R` in `main.rs`. -/
structure R where
  success : Bool
  response : Option J
  code : Option J
  message : Option J
  health : Option Bool


/-- `R::ok(payload)`. -/
def R.ok (payload : J) : R :=
  { success := true, response := some payload, code := none, message := none,
    health := none }

/-- `R::error(code, message)`. -/
def R.error (code : Int) (message : String) : R :=
  { success := false, response := none, code := some (J.num code),
    message := some (J.str message), health := none }

/-- `R::health(health)`.  (Named `healthEnv` because the field projection
already takes the name `R.health`.) -/
def R.healthEnv (h : Bool) : R :=
  { success := true, response := none, code := none, message := none,
    health := some h }

/-- Serialization of `R` by serde with
`#[serde(skip_serializing_if = "Option::is_none")]` on each optional field:
members appear in declaration order and an unset option contributes no member
at all (in particular never a `null`). -/
def R.toJson (r : R) : J :=
  J.obj ([("success", J.bool r.success)]
    ++ (match r.response with | some v => [("response", v)] | none => [])
    ++ (match r.code with | some v => [("code", v)] | none => [])
    ++ (match r.message with | some v => [("message", v)] | none => [])
    ++ (match r.health with | some b => [("health", J.bool b)] | none => []))

/-- The member names of a serialized object (empty for non-objects). -/
def jsonKeys : J → List String
  | .obj m => m.map (fun p => p.1)
  | _ => []

/-- A JSON-RPC response frame, mirroring struct `JsonRpcResponse`. -/
structure JsonRpcResponse where
  result : Option J
  error : Option J
  id : Nat


/-- A JSON-RPC request frame, mirroring struct `JsonRpcRequest`. -/
structure JsonRpcRequest where
  method : String
  params : List J
  id : Nat


/-! ### Id allocator (`get_next_id`) -/

/-- One call of `get_next_id` on counter value `c` (an `AtomicU32`, so
`c < 2^32`): if the counter already equals `u32::MAX` it is reset to `0`
first, then `fetch_add(1)` returns the pre-increment value.  Result is
`(returned id, new counter)`. -/
def getNextId (c : Nat) : Nat × Nat :=
  if c = 4294967295 then (0, 1) else (c, c + 1)

/-- Counter value after `n` sequential calls starting from the fresh counter
`0`. -/
def counterAfter : Nat → Nat
  | 0 => 0
  | n + 1 => (getNextId (counterAfter n)).2

/-- The id returned by the `n`-th sequential call (0-indexed) starting from a
fresh counter. -/
def valueAt (n : Nat) : Nat :=
  (getNextId (counterAfter n)).1

/-! ### Pending registry and cache -/

/-- Pending Registry: association list from correlation id to a sink token,
with `HashMap` semantics (at most one binding per id). -/
def regInsert (id sink : Nat) (reg : List (Nat × Nat)) : List (Nat × Nat) :=
  (id, sink) :: reg.filter (fun p => p.1 ≠ id)

/-- `HashMap::remove` on the registry. -/
def regRemove (id : Nat) (reg : List (Nat × Nat)) : List (Nat × Nat) :=
  reg.filter (fun p => p.1 ≠ id)

/-- Registry lookup. -/
def regLookup (id : Nat) (reg : List (Nat × Nat)) : Option Nat :=
  (reg.find? (fun p => p.1 = id)).map (fun p => p.2)

/-- The result cache: association list from 64-bit key to envelope, with
replace-on-insert semantics (moka: updates replace). -/
def cacheInsert (k : Nat) (v : R) (c : List (Nat × R)) : List (Nat × R) :=
  (k, v) :: c.filter (fun p => p.1 ≠ k)

/-- `cache.get`. -/
def cacheGet (k : Nat) (c : List (Nat × R)) : Option R :=
  (c.find? (fun p => p.1 = k)).map (fun p => p.2)

/-- A simple string hash used by the modelled fingerprint. -/
def strHash (s : String) : Nat :=
  s.data.foldl (fun h c => h * 131 + c.toNat) 7

mutual
/-- Structural hash of a JSON value, feeding the modelled cache key. -/
def hashJ : J → Nat
  | .null => 0
  | .bool b => if b then 1 else 2
  | .num n => 3 + 2 * n.natAbs + (if n < 0 then 1 else 0)
  | .str s => 5 + strHash s
  | .arr xs => 11 + 127 * hashJL xs
  | .obj m => 13 + 131 * hashJM m

/-- Hash of a list of JSON values. -/
def hashJL : List J → Nat
  | [] => 17
  | x :: xs => hashJ x * 31 + hashJL xs

/-- Hash of JSON object members. -/
def hashJM : List (String × J) → Nat
  | [] => 19
  | (k, v) :: xs => strHash k * 37 + hashJ v * 31 + hashJM xs
end

/-- Modelled from the spec: `to_cache_key` lives in the `cache` module, which
is not among the provided sources.  The spec describes it as a deterministic
64-bit fingerprint of `(method, params)`; we model it as a structural hash
reduced modulo `2^64`. -/
def to_cache_key (method : String) (params : List J) : Nat :=
  (strHash method * 1000003 + hashJL params) % 18446744073709551616

/-! ### Request coordinator (`handle_request`) -/

/-- The tip-query method name. -/
def tip_method : String := "blockchain.atomicals.get_global"

/-- Message of the local timeout error. -/
def responseTimeoutMsg : String := "Response timeout"

/-- Message of the local no-result/no-error envelope. -/
def noResponseMsg : String := "No response"

/-- The panic message of an `unwrap` on `None`. -/
def unwrapPanicMsg : String := "unwrap on a None value"

/-- Object member name `code`. -/
def codeKey : String := "code"

/-- Object member name `message`. -/
def messageKey : String := "message"

/-- Object member name `global`. -/
def globalKey : String := "global"

/-- Object member name `height`. -/
def heightKey : String := "height"

/-- What the awaited one-shot sink does within the `RESPONSE_TIMEOUT`
deadline: it completes with a response frame, it is dropped without
completion (`Ok(Err(_))`), or the deadline elapses (`Err(_)`). -/
inductive SinkOutcome where
  | completed (rep : JsonRpcResponse)
  | dropped
  | timedOut

/-- The dispatch part of `handle_request`, entered after a cache miss (or for
the uncacheable tip method): registry insert, send, then the `tokio::time::timeout`
match.  Returns the envelope together with the resulting cache and registry;
`Except.error` models a Rust panic. -/
def dispatchRequest (cache : List (Nat × R)) (reg : List (Nat × Nat))
    (id sink : Nat) (key : Nat) (useCache : Bool) (outcome : SinkOutcome) :
    Except String (R × List (Nat × R) × List (Nat × Nat)) :=
  let reg1 := regInsert id sink reg
  match outcome with
  | .completed rep =>
    match rep.result with
    | some result =>
      let r := R.ok result
      if useCache then .ok (r, cacheInsert key r cache, reg1)
      else .ok (r, cache, reg1)
    | none =>
      match rep.error with
      | some e =>
        match e.asObject with
        | some m =>
          .ok ({ success := false, code := jGet codeKey m,
                 message := jGet messageKey m, response := none,
                 health := none }, cache, reg1)
        | none => .error unwrapPanicMsg
      | none => .ok (R.error (-1) noResponseMsg, cache, reg1)
  | .dropped => .ok (R.error (-1) responseTimeoutMsg, cache, regRemove id reg1)
  | .timedOut => .ok (R.error (-1) responseTimeoutMsg, cache, regRemove id reg1)

/-- `handle_request`: cache lookup (skipped for the tip method), then
dispatch.  `id` is the value of `get_next_id()`, `sink` the fresh one-shot
sender, `outcome` what the awaited sink did. -/
def handle_request (cache : List (Nat × R)) (reg : List (Nat × Nat))
    (id sink : Nat) (method : String) (params : List J)
    (outcome : SinkOutcome) :
    Except String (R × List (Nat × R) × List (Nat × Nat)) :=
  let key := to_cache_key method params
  if method = tip_method then
    dispatchRequest cache reg id sink key false outcome
  else
    match cacheGet key cache with
    | some v => .ok (v, cache, reg)
    | none => dispatchRequest cache reg id sink key true outcome

/-- HTTP status of a coordinator result: a returned envelope is served by
axum as `Json` with status 200; a panic is caught by `CatchPanicLayer`
(`handle_panic`) and served with status 500. -/
def http_status (x : Except String (R × List (Nat × R) × List (Nat × Nat))) :
    Nat :=
  match x with
  | .ok _ => 200
  | .error _ => 500

/-! ### Health endpoint (`handle_health`) -/

/-- The frame sent by the health probe. -/
def health_request (id : Nat) : JsonRpcRequest :=
  { method := tip_method, params := [], id := id }

/-- The fixed deadline of the health probe, seconds. -/
def health_timeout_secs : Nat := 5

/-- `handle_health`: allocate an id, register a sink, send the tip query,
await with a fixed 5 s deadline.  On completion, `R::health(result.is_some())`;
on drop or deadline, remove the registry entry and `R::health(false)`. -/
def handle_health (reg : List (Nat × Nat)) (id sink : Nat)
    (outcome : SinkOutcome) : R × List (Nat × Nat) :=
  let reg1 := regInsert id sink reg
  match outcome with
  | .completed rep => (R.healthEnv rep.result.isSome, reg1)
  | .dropped => (R.healthEnv false, regRemove id reg1)
  | .timedOut => (R.healthEnv false, regRemove id reg1)

/-! ### Upstream receive loop (`try_new_client`) -/

/-- State visible to the receive loop: the pending registry and, for the
embedding, the trace of sink completions (sink token paired with the
delivered frame). -/
structure RecvState where
  pending : List (Nat × Nat)
  completed : List (Nat × JsonRpcResponse)

/-- One parsed text frame processed by the receive loop: take the id's entry
out of the registry; when present, complete that sink with the frame; when
absent, only log — state unchanged. -/
def recvFrame (s : RecvState) (resp : JsonRpcResponse) : RecvState :=
  match regLookup resp.id s.pending with
  | some sink =>
    { pending := regRemove resp.id s.pending,
      completed := s.completed ++ [(sink, resp)] }
  | none => s

/-! ### Tip poller (one loop iteration of the spawned task in `main`) -/

/-- One iteration of the tip poller after its coordinator call returned
envelope `r`, given the stored `block_height` and the cache.  Returns the new
stored height, the cache (the `invalidate_all` call is commented out in the
source, so the cache is returned unchanged on every path), and whether the
new-height log line (which announces cache invalidation) fired;
`Except.error` models a panic of the `unwrap` chain, which kills the spawned
poller task. -/
def poll_step (block_height : Nat) (cache : List (Nat × R)) (r : R) :
    Except String (Nat × List (Nat × R) × Bool) :=
  match r.response with
  | none => .ok (block_height, cache, false)
  | some v =>
    match v with
    | J.obj m =>
      match jGet globalKey m with
      | none => .error unwrapPanicMsg
      | some g =>
        match g.asObject with
        | none => .error unwrapPanicMsg
        | some gm =>
          match jGet heightKey gm with
          | none => .error unwrapPanicMsg
          | some hv =>
            match hv.asU64 with
            | none => .error unwrapPanicMsg
            | some height =>
              if block_height ≠ height then .ok (height, cache, true)
              else .ok (block_height, cache, false)
    | _ => .ok (block_height, cache, false)

/-! ### Sample data for concrete evaluations -/

/-- A sample cacheable method name. -/
def sampleMethod : String := "blockchain.block.header"

/-- The cache key of the sample method with empty params. -/
def sampleCachedKey : Nat := to_cache_key sampleMethod []

/-- A one-entry cache holding a success envelope for the sample key. -/
def sampleCache : List (Nat × R) :=
  cacheInsert sampleCachedKey (R.ok J.null) []

/-- A well-formed `blockchain.atomicals.get_global` result envelope carrying
the given height. -/
def tipResponse (h : Int) : R :=
  R.ok (J.obj [(globalKey, J.obj [(heightKey, J.num h)])])

/-! ### Helper lemmas -/

/-- Closed form of the id counter: after `n+1` sequential calls the counter
holds `n % (2^32 - 1) + 1`. -/
theorem counterAfter_succ (n : Nat) :
    counterAfter (n + 1) = n % 4294967295 + 1 := by
  induction n with
  | zero => simp [counterAfter, getNextId]
  | succ m ih =>
    have h2 : counterAfter (m + 1 + 1) = (getNextId (counterAfter (m + 1))).2 :=
      rfl
    rw [h2, ih]
    unfold getNextId
    split_ifs with h
    · show (1 : Nat) = (m + 1) % 4294967295 + 1
      omega
    · show m % 4294967295 + 1 + 1 = (m + 1) % 4294967295 + 1
      omega

/-- Closed form of the id sequence: the `n`-th sequential call returns
`n % (2^32 - 1)`. -/
theorem valueAt_eq (n : Nat) : valueAt n = n % 4294967295 := by
  cases n with
  | zero => simp [valueAt, counterAfter, getNextId]
  | succ m =>
    unfold valueAt
    rw [counterAfter_succ]
    unfold getNextId
    split_ifs with h
    · show (0 : Nat) = (m + 1) % 4294967295
      omega
    · show m % 4294967295 + 1 = (m + 1) % 4294967295
      omega

/-- C3 counterexample: the claim as stated fails.  Within the first `2^32`
sequential calls (indices `0` and `2^32 - 1 < 2^32`) two calls already return
the same id `0`: the allocator resets at `u32::MAX`, so values recycle after
`2^32 - 1` calls, not `2^32`. -/
theorem c3_counterexample :
    valueAt 4294967295 = valueAt 0 ∧ (4294967295 : Nat) < 4294967296 ∧
      (4294967295 : Nat) ≠ 0 := by
  refine ⟨?_, by norm_num, by norm_num⟩
  rw [valueAt_eq, valueAt_eq]

/-- C3 (amended): starting from a fresh counter, successive sequential calls
of `get_next_id` return pairwise distinct values until `2^32 - 1` calls have
elapsed, at which point values recycle starting at 0; the value `2^32 - 1`
is never returned. -/
theorem c3_amended_wrap_early (i j : Nat) (hi : i < 4294967295)
    (hj : j < 4294967295) :
    (valueAt i = valueAt j ↔ i = j) ∧
    valueAt (i + 4294967295) = valueAt i ∧
    valueAt 4294967295 = 0 ∧
    valueAt i ≠ 4294967295 := by
  simp only [valueAt_eq]
  refine ⟨?_, Nat.add_mod_right i 4294967295, by trivial, ?_⟩
  · rw [Nat.mod_eq_of_lt hi, Nat.mod_eq_of_lt hj]
  · rw [Nat.mod_eq_of_lt hi]
    omega

/-- Witness for `c3_amended_wrap_early` at `i = 2`, `j = 3`. -/
theorem c3_amended_wrap_early_witness :
    (valueAt 2 = valueAt 3 ↔ 2 = 3) ∧
    valueAt (2 + 4294967295) = valueAt 2 ∧
    valueAt 4294967295 = 0 ∧
    valueAt 2 ≠ 4294967295 :=
  c3_amended_wrap_early 2 3 (by norm_num) (by norm_num)

/-- An id with lookup `none` binds no entry of the registry. -/
theorem regLookup_none_forall (id : Nat) (reg : List (Nat × Nat))
    (hid : regLookup id reg = none) : ∀ x ∈ reg, x.1 ≠ id := by
  have hfind : reg.find? (fun p => p.1 = id) = none := by
    cases hf : reg.find? (fun p => p.1 = id) with
    | none => rfl
    | some x => rw [regLookup, hf] at hid; simp at hid
  intro x hx
  have := List.find?_eq_none.mp hfind x hx
  simpa using this

/-- Removing an id that has no binding leaves the registry unchanged. -/
theorem regRemove_of_lookup_none (id : Nat) (reg : List (Nat × Nat))
    (hid : regLookup id reg = none) : regRemove id reg = reg := by
  apply List.filter_eq_self.mpr
  intro a ha
  simpa using regLookup_none_forall id reg hid a ha

/-- Timeout cleanup: removing the id after inserting it restores a registry
that did not contain the id. -/
theorem regRemove_regInsert (id sink : Nat) (reg : List (Nat × Nat))
    (hid : regLookup id reg = none) :
    regRemove id (regInsert id sink reg) = reg := by
  have hr : regRemove id reg = reg := regRemove_of_lookup_none id reg hid
  unfold regRemove at hr
  unfold regRemove regInsert
  simp [hr]
  intro a b hab
  exact regLookup_none_forall id reg hid (a, b) hab

/-- No binding survives its own removal. -/
theorem regLookup_regRemove (id : Nat) (reg : List (Nat × Nat)) :
    regLookup id (regRemove id reg) = none := by
  have hfind : (regRemove id reg).find? (fun p => p.1 = id) = none := by
    apply List.find?_eq_none.mpr
    intro x hx
    have hmem := List.mem_filter.mp hx
    simpa using hmem.2
  rw [regLookup, hfind]
  rfl

/-- C4: for every coordinator invocation that dispatches (tip method or cache
miss) and whose sink is dropped or whose `RESPONSE_TIMEOUT` deadline elapses,
`handle_request` returns `R::error(-1, "Response timeout")`, inserts nothing
into the cache, and the Pending Registry returns to its pre-call state (the
inserted correlation id is removed again). -/
theorem c4_timeout_cleanup (cache : List (Nat × R)) (reg : List (Nat × Nat))
    (id sink : Nat) (method : String) (params : List J)
    (outcome : SinkOutcome)
    (hmiss : method = tip_method ∨
      cacheGet (to_cache_key method params) cache = none)
    (hout : outcome = .dropped ∨ outcome = .timedOut)
    (hid : regLookup id reg = none) :
    handle_request cache reg id sink method params outcome =
      .ok (R.error (-1) responseTimeoutMsg, cache, reg) := by
  have hclean := regRemove_regInsert id sink reg hid
  have hdisp : ∀ u, dispatchRequest cache reg id sink
      (to_cache_key method params) u outcome =
      .ok (R.error (-1) responseTimeoutMsg, cache, reg) := by
    intro u
    rcases hout with h | h <;> subst h <;> simp [dispatchRequest, hclean]
  simp only [handle_request]
  by_cases hm : method = tip_method
  · rw [if_pos hm]
    exact hdisp false
  · rw [if_neg hm]
    rcases hmiss with h | h
    · exact absurd h hm
    · rw [h]
      exact hdisp true

/-- Witness for `c4_timeout_cleanup`: a concrete timed-out call on an empty
cache and registry. -/
theorem c4_timeout_cleanup_witness :
    handle_request [] [] 3 4 sampleMethod [] .timedOut =
      .ok (R.error (-1) responseTimeoutMsg, [], []) :=
  c4_timeout_cleanup [] [] 3 4 sampleMethod [] .timedOut (Or.inr rfl)
    (Or.inr rfl) rfl

/-- Cache behaviour of the dispatch path: the cache either comes back
unchanged, or (caching enabled, sink completed with a result) the success
envelope of that result is inserted under the request key. -/
theorem dispatchRequest_cache2 (cache : List (Nat × R))
    (reg : List (Nat × Nat)) (id sink key : Nat) (useCache : Bool)
    (outcome : SinkOutcome) (r : R) (cache2 : List (Nat × R))
    (reg2 : List (Nat × Nat))
    (h : dispatchRequest cache reg id sink key useCache outcome =
      .ok (r, cache2, reg2)) :
    cache2 = cache ∨
      (useCache = true ∧ ∃ rep res, outcome = .completed rep ∧
        rep.result = some res ∧ r = R.ok res ∧
        cache2 = cacheInsert key (R.ok res) cache) := by
  cases outcome with
  | completed rep =>
    cases hres : rep.result with
    | some res =>
      cases useCache with
      | true =>
        right
        simp [dispatchRequest, hres] at h
        exact ⟨rfl, rep, res, rfl, hres, h.1.symm, h.2.1.symm⟩
      | false =>
        left
        simp [dispatchRequest, hres] at h
        exact h.2.1.symm
    | none =>
      cases herr : rep.error with
      | some e =>
        cases he : e.asObject with
        | some mm =>
          left
          simp [dispatchRequest, hres, herr, he] at h
          exact h.2.1.symm
        | none =>
          exact absurd h (by simp [dispatchRequest, hres, herr, he])
      | none =>
        left
        simp [dispatchRequest, hres, herr] at h
        exact h.2.1.symm
  | dropped =>
    left
    simp [dispatchRequest] at h
    exact h.2.1.symm
  | timedOut =>
    left
    simp [dispatchRequest] at h
    exact h.2.1.symm

/-- C2: in every `handle_request` invocation a cache insertion happens only
on the completed-with-result path and only when the method is not the tip
query; every entry that gets inserted is the success envelope of the result,
so no `success = false` envelope and no entry for the tip method is ever
cached. -/
theorem c2_cache_insert_only_success (cache : List (Nat × R))
    (reg : List (Nat × Nat)) (id sink : Nat) (method : String)
    (params : List J) (outcome : SinkOutcome) (r : R)
    (cache2 : List (Nat × R)) (reg2 : List (Nat × Nat))
    (h : handle_request cache reg id sink method params outcome =
      .ok (r, cache2, reg2)) :
    cache2 = cache ∨
      ∃ rep res, outcome = .completed rep ∧ rep.result = some res ∧
        method ≠ tip_method ∧ r = R.ok res ∧
        cache2 = cacheInsert (to_cache_key method params) (R.ok res) cache ∧
        (R.ok res).success = true ∧ (R.ok res).response = some res := by
  simp only [handle_request] at h
  by_cases hm : method = tip_method
  · rw [if_pos hm] at h
    rcases dispatchRequest_cache2 _ _ _ _ _ _ _ _ _ _ h with hc | ⟨hfalse, _⟩
    · exact Or.inl hc
    · exact absurd hfalse (by simp)
  · rw [if_neg hm] at h
    cases hcg : cacheGet (to_cache_key method params) cache with
    | some v =>
      rw [hcg] at h
      simp at h
      exact Or.inl h.2.1.symm
    | none =>
      rw [hcg] at h
      rcases dispatchRequest_cache2 _ _ _ _ _ _ _ _ _ _ h with hc |
        ⟨_, rep, res, hout, hres, hr, hc⟩
      · exact Or.inl hc
      · exact Or.inr ⟨rep, res, hout, hres, hm, hr, hc, rfl, rfl⟩

/-- Witness for `c2_cache_insert_only_success`: a concrete completed call
whose result is cached. -/
theorem c2_cache_insert_only_success_witness :
    cacheInsert (to_cache_key sampleMethod []) (R.ok J.null) [] = [] ∨
      ∃ rep res, SinkOutcome.completed ⟨some J.null, none, 3⟩ =
          SinkOutcome.completed rep ∧ rep.result = some res ∧
        sampleMethod ≠ tip_method ∧ R.ok J.null = R.ok res ∧
        cacheInsert (to_cache_key sampleMethod []) (R.ok J.null) [] =
          cacheInsert (to_cache_key sampleMethod []) (R.ok res) [] ∧
        (R.ok res).success = true ∧ (R.ok res).response = some res :=
  c2_cache_insert_only_success [] [] 3 4 sampleMethod []
    (.completed ⟨some J.null, none, 3⟩) (R.ok J.null)
    (cacheInsert (to_cache_key sampleMethod []) (R.ok J.null) [])
    (regInsert 3 4 []) (by rfl)

/-- C5: a dispatched call whose sink completes with no result but with an
error *object* returns `success = false` with `code`/`message` copied from
the error object members (absent members stay omitted), no `response`
field, served with HTTP 200, and the cache is left unchanged. -/
theorem c5_upstream_error_passthrough (cache : List (Nat × R))
    (reg : List (Nat × Nat)) (id sink : Nat) (method : String)
    (params : List J) (rep : JsonRpcResponse) (m : List (String × J))
    (hmiss : method = tip_method ∨
      cacheGet (to_cache_key method params) cache = none)
    (hres : rep.result = none) (herr : rep.error = some (J.obj m)) :
    handle_request cache reg id sink method params (.completed rep) =
      .ok ({ success := false, response := none, code := jGet codeKey m,
             message := jGet messageKey m, health := none }, cache,
        regInsert id sink reg) ∧
    http_status (handle_request cache reg id sink method params
      (.completed rep)) = 200 := by
  have hdisp : ∀ u, dispatchRequest cache reg id sink
      (to_cache_key method params) u (.completed rep) =
      .ok ({ success := false, response := none, code := jGet codeKey m,
             message := jGet messageKey m, health := none }, cache,
        regInsert id sink reg) := by
    intro u
    simp [dispatchRequest, hres, herr, J.asObject]
  have hmain : handle_request cache reg id sink method params
      (.completed rep) =
      .ok ({ success := false, response := none, code := jGet codeKey m,
             message := jGet messageKey m, health := none }, cache,
        regInsert id sink reg) := by
    simp only [handle_request]
    by_cases hm : method = tip_method
    · rw [if_pos hm]
      exact hdisp false
    · rw [if_neg hm]
      rcases hmiss with h | h
      · exact absurd h hm
      · rw [h]
        exact hdisp true
  exact ⟨hmain, by rw [hmain]; rfl⟩

/-- Witness for `c5_upstream_error_passthrough`: a concrete upstream error
object with only a `code` member; `message` stays omitted. -/
theorem c5_upstream_error_passthrough_witness :
    handle_request [] [] 5 6 sampleMethod []
      (.completed ⟨none, some (J.obj [(codeKey, J.num 1)]), 5⟩) =
      .ok ({ success := false, response := none,
             code := jGet codeKey [(codeKey, J.num 1)],
             message := jGet messageKey [(codeKey, J.num 1)],
             health := none }, [], regInsert 5 6 []) ∧
    http_status (handle_request [] [] 5 6 sampleMethod []
      (.completed ⟨none, some (J.obj [(codeKey, J.num 1)]), 5⟩)) = 200 :=
  c5_upstream_error_passthrough [] [] 5 6 sampleMethod []
    ⟨none, some (J.obj [(codeKey, J.num 1)]), 5⟩ [(codeKey, J.num 1)]
    (Or.inr rfl) rfl rfl

/-- C9: the upstream-error branch of `handle_request` is total only when the
error member is a JSON object: a completion with `result` absent and a
non-object `error` reaches the unguarded `as_object().unwrap()` and the
branch panics instead of returning a passthrough envelope; with an object it
returns normally. -/
theorem c9_error_branch_panics_on_nonobject (cache : List (Nat × R))
    (reg : List (Nat × Nat)) (id sink : Nat) (method : String)
    (params : List J) (rep : JsonRpcResponse) (e : J)
    (hmiss : method = tip_method ∨
      cacheGet (to_cache_key method params) cache = none)
    (hres : rep.result = none) (herr : rep.error = some e)
    (hne : e.asObject = none) :
    handle_request cache reg id sink method params (.completed rep) =
      .error unwrapPanicMsg ∧
    http_status (handle_request cache reg id sink method params
      (.completed rep)) = 500 := by
  have hdisp : ∀ u, dispatchRequest cache reg id sink
      (to_cache_key method params) u (.completed rep) =
      .error unwrapPanicMsg := by
    intro u
    simp [dispatchRequest, hres, herr, hne]
  have hmain : handle_request cache reg id sink method params
      (.completed rep) = .error unwrapPanicMsg := by
    simp only [handle_request]
    by_cases hm : method = tip_method
    · rw [if_pos hm]
      exact hdisp false
    · rw [if_neg hm]
      rcases hmiss with h | h
      · exact absurd h hm
      · rw [h]
        exact hdisp true
  exact ⟨hmain, by rw [hmain]; rfl⟩

/-- Witness for `c9_error_branch_panics_on_nonobject`: a numeric `error`
member makes the branch panic. -/
theorem c9_error_branch_panics_on_nonobject_witness :
    handle_request [] [] 7 8 sampleMethod []
      (.completed ⟨none, some (J.num 3), 7⟩) = .error unwrapPanicMsg ∧
    http_status (handle_request [] [] 7 8 sampleMethod []
      (.completed ⟨none, some (J.num 3), 7⟩)) = 500 :=
  c9_error_branch_panics_on_nonobject [] [] 7 8 sampleMethod []
    ⟨none, some (J.num 3), 7⟩ (J.num 3) (Or.inr rfl) rfl rfl rfl

/-- C7: the health endpoint sends one `blockchain.atomicals.get_global`
frame with a fixed 5 s deadline; it answers `R::health(true)` exactly when a
completion carrying a result arrives, `R::health(false)` on a completion
without result as well as on sink drop or deadline; both envelopes have
`success = true`; on drop/deadline the allocated id is removed again, so a
fresh registry comes back unchanged. -/
theorem c7_health_endpoint (reg : List (Nat × Nat)) (id sink : Nat)
    (rep : JsonRpcResponse) (hid : regLookup id reg = none) :
    health_request id = { method := tip_method, params := [], id := id } ∧
    health_timeout_secs = 5 ∧
    (handle_health reg id sink (.completed rep)).1 =
      R.healthEnv rep.result.isSome ∧
    ((handle_health reg id sink (.completed rep)).1.health = some true ↔
      rep.result.isSome = true) ∧
    (handle_health reg id sink (.completed rep)).1.success = true ∧
    handle_health reg id sink .timedOut = (R.healthEnv false, reg) ∧
    handle_health reg id sink .dropped = (R.healthEnv false, reg) := by
  have hclean := regRemove_regInsert id sink reg hid
  refine ⟨rfl, rfl, rfl, ?_, rfl, ?_, ?_⟩
  · cases hr : rep.result <;> simp [handle_health, R.healthEnv, hr]
  · simp [handle_health, hclean]
  · simp [handle_health, hclean]

/-- Witness for `c7_health_endpoint` on a fresh registry with a completed
result. -/
theorem c7_health_endpoint_witness :
    health_request 2 = { method := tip_method, params := [], id := 2 } ∧
    health_timeout_secs = 5 ∧
    (handle_health [] 2 9 (.completed ⟨some J.null, none, 2⟩)).1 =
      R.healthEnv (Option.isSome (some J.null)) ∧
    ((handle_health [] 2 9 (.completed ⟨some J.null, none, 2⟩)).1.health =
        some true ↔ Option.isSome (some J.null) = true) ∧
    (handle_health [] 2 9 (.completed ⟨some J.null, none, 2⟩)).1.success =
      true ∧
    handle_health [] 2 9 .timedOut = (R.healthEnv false, []) ∧
    handle_health [] 2 9 .dropped = (R.healthEnv false, []) :=
  c7_health_endpoint [] 2 9 ⟨some J.null, none, 2⟩ rfl

/-- C8: serde serialization of `R` omits every unset optional field: the
member-name list contains a name exactly when the field is set, so absent
fields never serialize (in particular never as `null`); the three envelope
shapes serialize to exactly the two- resp. three-member objects of the
spec. -/
theorem c8_serialization_omits_unset (r : R) (v c msg : J) (b : Bool) :
    R.toJson (R.ok v) =
      J.obj [("success", J.bool true), ("response", v)] ∧
    R.toJson { success := false, response := none, code := some c,
               message := some msg, health := none } =
      J.obj [("success", J.bool false), ("code", c), ("message", msg)] ∧
    R.toJson (R.healthEnv b) =
      J.obj [("success", J.bool true), ("health", J.bool b)] ∧
    jsonKeys (R.toJson r) = ["success"]
      ++ (match r.response with | some _ => ["response"] | none => [])
      ++ (match r.code with | some _ => ["code"] | none => [])
      ++ (match r.message with | some _ => ["message"] | none => [])
      ++ (match r.health with | some _ => ["health"] | none => []) := by
  refine ⟨rfl, rfl, rfl, ?_⟩
  rcases r with ⟨s, resp, cd, ms, hl⟩
  cases resp <;> cases cd <;> cases ms <;> cases hl <;>
    simp [R.toJson, jsonKeys]

/-- C10: in the upstream receive loop, a parsed frame whose id has no
registry binding leaves the state (registry and completion trace) unchanged;
a matched id has its binding removed before the sink is completed, the sink
receives exactly one completion, and a second frame with the same id is a
no-op. -/
theorem c10_recv_loop_matching (s : RecvState)
    (resp resp2 : JsonRpcResponse) (sink : Nat)
    (h2 : resp2.id = resp.id) :
    (regLookup resp.id s.pending = none → recvFrame s resp = s) ∧
    (regLookup resp.id s.pending = some sink →
      (recvFrame s resp).pending = regRemove resp.id s.pending ∧
      (recvFrame s resp).completed = s.completed ++ [(sink, resp)] ∧
      regLookup resp.id (recvFrame s resp).pending = none ∧
      recvFrame (recvFrame s resp) resp2 = recvFrame s resp) := by
  constructor
  · intro hnone
    simp [recvFrame, hnone]
  · intro hsome
    have hpend : (recvFrame s resp).pending = regRemove resp.id s.pending := by
      simp [recvFrame, hsome]
    have hgone : regLookup resp.id (recvFrame s resp).pending = none := by
      rw [hpend]
      exact regLookup_regRemove resp.id s.pending
    refine ⟨hpend, by simp [recvFrame, hsome], hgone, ?_⟩
    generalize hT : recvFrame s resp = t at hgone ⊢
    have hgone2 : regLookup resp2.id t.pending = none := by
      rw [h2]
      exact hgone
    simp [recvFrame, hgone2]

/-- Witness for `c10_recv_loop_matching`: a one-entry registry, a matching
frame, then a duplicate frame with the same id. -/
theorem c10_recv_loop_matching_witness :
    (regLookup 1 (RecvState.mk [(1, 2)] []).pending = none →
      recvFrame ⟨[(1, 2)], []⟩ ⟨none, none, 1⟩ = ⟨[(1, 2)], []⟩) ∧
    (regLookup 1 (RecvState.mk [(1, 2)] []).pending = some 2 →
      (recvFrame ⟨[(1, 2)], []⟩ ⟨none, none, 1⟩).pending =
        regRemove 1 [(1, 2)] ∧
      (recvFrame ⟨[(1, 2)], []⟩ ⟨none, none, 1⟩).completed =
        [] ++ [(2, ⟨none, none, 1⟩)] ∧
      regLookup 1 (recvFrame ⟨[(1, 2)], []⟩ ⟨none, none, 1⟩).pending =
        none ∧
      recvFrame (recvFrame ⟨[(1, 2)], []⟩ ⟨none, none, 1⟩)
          ⟨some J.null, none, 1⟩ =
        recvFrame ⟨[(1, 2)], []⟩ ⟨none, none, 1⟩) :=
  c10_recv_loop_matching ⟨[(1, 2)], []⟩ ⟨none, none, 1⟩
    ⟨some J.null, none, 1⟩ 2 rfl

/-- C1 (code bug): at stored height 0, a tip response with height 842100
makes the poller store the new height and emit the new-height log line
(which announces cache invalidation), yet the cache comes back unchanged —
the `cache.invalidate_all()` call is commented out in the source — so the
previously cached key still hits and the next call for it is *not* a fresh
dispatch: `handle_request` still answers from the cache with the registry
untouched. -/
theorem c1_tip_poller_does_not_invalidate :
    poll_step 0 sampleCache (tipResponse 842100) =
      .ok (842100, sampleCache, true) ∧
    cacheGet sampleCachedKey sampleCache = some (R.ok J.null) ∧
    handle_request sampleCache [] 7 8 sampleMethod [] .timedOut =
      .ok (R.ok J.null, sampleCache, []) := by
  exact ⟨rfl, rfl, rfl⟩

/-- C6 counterexample: an object response whose `global` member is missing
does not make the poller "do nothing and continue": the `unwrap` chain
panics and the spawned poller task terminates. -/
theorem c6_counterexample :
    poll_step 0 [] (R.ok (J.obj [])) = .error unwrapPanicMsg ∧
    poll_step 0 [] (R.ok (J.obj [])) ≠ .ok (0, [], false) := by
  refine ⟨rfl, ?_⟩
  intro h
  have h2 : (Except.error unwrapPanicMsg :
      Except String (Nat × List (Nat × R) × Bool)) = .ok (0, [], false) := h
  exact Except.noConfusion h2

/-- C6 (amended): an iteration of the tip poller whose call yields no
response or a non-object response does nothing and polling continues; but
when the response is an object whose `global` member is missing or not
itself an object, or whose `height` member is missing or not an unsigned
64-bit integer, the unguarded `unwrap` chain panics and the polling task
terminates instead of continuing. -/
theorem c6_amended_skip_or_panic (height : Nat) (cache : List (Nat × R))
    (r : R) (v g hv : J) (m gm : List (String × J)) :
    (r.response = none → poll_step height cache r = .ok (height, cache, false)) ∧
    (r.response = some v → v.isObj = false →
      poll_step height cache r = .ok (height, cache, false)) ∧
    (r.response = some (J.obj m) → jGet globalKey m = none →
      poll_step height cache r = .error unwrapPanicMsg) ∧
    (r.response = some (J.obj m) → jGet globalKey m = some g →
      g.asObject = none →
      poll_step height cache r = .error unwrapPanicMsg) ∧
    (r.response = some (J.obj m) → jGet globalKey m = some g →
      g.asObject = some gm → jGet heightKey gm = none →
      poll_step height cache r = .error unwrapPanicMsg) ∧
    (r.response = some (J.obj m) → jGet globalKey m = some g →
      g.asObject = some gm → jGet heightKey gm = some hv →
      hv.asU64 = none →
      poll_step height cache r = .error unwrapPanicMsg) := by
  refine ⟨?_, ?_, ?_, ?_, ?_, ?_⟩
  · intro h1
    simp [poll_step, h1]
  · intro h1 h2
    cases v <;> simp_all [poll_step, J.isObj]
  · intro h1 h2
    simp [poll_step, h1, h2]
  · intro h1 h2 h3
    simp [poll_step, h1, h2, h3]
  · intro h1 h2 h3 h4
    simp [poll_step, h1, h2, h3, h4]
  · intro h1 h2 h3 h4 h5
    simp [poll_step, h1, h2, h3, h4, h5]

/-- Witness for `c6_amended_skip_or_panic`: a no-response envelope is
skipped, a non-object response is skipped, and a `global` member that is not
an object panics. -/
theorem c6_amended_skip_or_panic_witness :
    poll_step 0 [] (R.healthEnv true) = .ok (0, [], false) ∧
    poll_step 0 [] (R.ok (J.num 3)) = .ok (0, [], false) ∧
    poll_step 0 [] (R.ok (J.obj [(globalKey, J.num 4)])) =
      .error unwrapPanicMsg :=
  ⟨(c6_amended_skip_or_panic 0 [] (R.healthEnv true) J.null J.null J.null
      [] []).1 rfl,
   (c6_amended_skip_or_panic 0 [] (R.ok (J.num 3)) (J.num 3) J.null J.null
      [] []).2.1 rfl rfl,
   (c6_amended_skip_or_panic 0 [] (R.ok (J.obj [(globalKey, J.num 4)]))
      J.null (J.num 4) J.null [(globalKey, J.num 4)] []).2.2.2.1 rfl rfl
      rfl⟩
